import Mathlib

/-!
A shallow embedding of `ceph/ceph_admin/helper.py` (cephci): the cephadm
service-spec generator (`GenerateServiceSpec`) and the cluster-state query
helpers (`get_host_osd_map`, `get_host_daemon_map`, `file_or_path_exists`,
`validate_log_file_after_enable`).

External collaborators (remote execution, the node registry from `ceph.utils`,
the certificate generator from `utility.utils`, the Jinja templates) are
modelled as explicit parameters or, where the repository code is not available,
from the specification (marked `Modelled from the spec:`).  Python dictionaries
whose touched keys are statically known are modelled as structures with
`Option` fields (key present/absent); insertion-ordered dictionaries with
dynamic keys are modelled as association lists.  Python exceptions become
`Except` errors; remote side effects become explicit effect traces.
-/

namespace CephHelper

/-- Python exceptions that can surface from the helper module. -/
inductive PyErr where
  | notImplementedError
  | unknownSpecFound
  | lookupError
  | keyError
  | indexError
  deriving DecidableEq, Repr

/-- Failure raised by the remote-execution collaborator on non-zero exit
(`CommandFailed` from `ceph.ceph`). -/
structure CommandFailed where
  msg : String
  deriving DecidableEq, Repr

/-- The slice of the cluster-node object model the helper touches:
`shortname`, `hostname`, `ip_address`, `role.role_list`, plus the logical
id used by the node-registry lookups. -/
structure CephNode where
  id : String
  shortname : String
  hostname : String
  ip_address : String
  role_list : List String
  deriving DecidableEq, Repr

/-- Modelled from the spec: `get_node_by_id` (from `ceph.utils`, which is not
under `src/`) looks one logical node identifier up in the cluster registry and
fails with `LookupError` when the identifier is unknown. -/
def get_node_by_id (cluster : List CephNode) (name : String) : Except PyErr CephNode :=
  match cluster.find? (fun n => n.id == name) with
  | some node => Except.ok node
  | none => Except.error PyErr.lookupError

/-- Modelled from the spec: `get_nodes_by_ids` (from `ceph.utils`, which is not
under `src/`) resolves each identifier in order against the registry, failing
with `LookupError` on the first unknown one. -/
def get_nodes_by_ids (cluster : List CephNode) (ids : List String) :
    Except PyErr (List CephNode) :=
  ids.mapM (get_node_by_id cluster)

/-- `GenerateServiceSpec.get_hostnames`: resolve node names and return their
shortnames. -/
def get_hostnames (cluster : List CephNode) (node_names : List String) :
    Except PyErr (List String) := do
  let nodes ← get_nodes_by_ids cluster node_names
  pure (nodes.map (fun node => node.shortname))

/-- The `placement` sub-mapping of a service-spec block, restricted to the two
keys the code reads or writes (`nodes`, `hosts`); `none` models an absent key.
All other placement keys only pass through to the template unchanged. -/
structure Placement where
  nodes : Option (List String) := none
  hosts : Option (List String) := none
  deriving DecidableEq, Repr

/-- The inner `spec` sub-mapping of a service-spec block, restricted to the one
key the code touches. -/
structure InnerSpec where
  rgw_frontend_ssl_certificate : Option String := none
  deriving DecidableEq, Repr

/-- A service-spec block (one entry of the `specs` list), restricted to the
keys the code reads or writes.  `address`/`labels` hold the truthiness of
`spec.get("address")` / `spec.get("labels")` (an absent key is falsy). -/
structure ServiceSpecBlock where
  service_type : String
  placement : Placement := {}
  nodes : Option (List String) := none
  address : Bool := false
  labels : Bool := false
  service_id : Option String := none
  spec : Option InnerSpec := none
  deriving DecidableEq, Repr

/-- One entry of the `hosts` list handed to the `host` template; `none` models
a key the renderer did not set. -/
structure HostEntry where
  hostname : String
  address : Option String := none
  labels : Option (List String) := none
  deriving DecidableEq, Repr

/-- What a render call hands to its (external) Jinja template: the `host`
template gets the hosts list, every other template gets the (possibly
mutated) spec block. -/
inductive Rendered where
  | hostTemplate (hosts : List HostEntry)
  | svcTemplate (template : String) (spec : ServiceSpecBlock)
  deriving DecidableEq, Repr

/-- A remote side effect performed during rendering: a `remote_file` write
followed by `flush`, or an `exec_command` invocation, both on a node object. -/
inductive Effect where
  | remoteFileWrite (node : CephNode) (file_name : String) (contents : String)
  | execCommand (node : CephNode) (cmd : String)
  deriving DecidableEq, Repr

/-- The outcome of one successful render call: the caller-supplied block after
any in-place mutation, the data handed to the template, and the remote side
effects performed. -/
structure RenderResult where
  block : ServiceSpecBlock
  out : Rendered
  effects : List Effect
  deriving DecidableEq, Repr

/-- Python truthiness of `spec["placement"].pop("nodes", None)`: `None` and the
empty list are falsy. -/
def truthyList : Option (List String) → Bool
  | none => false
  | some l => !l.isEmpty

/-- The three lines shared verbatim by the generic/osd/mds/nfs/rgw generators:
`node_names = spec["placement"].pop("nodes", None)` followed by
`if node_names: spec["placement"]["hosts"] = self.get_hostnames(node_names)`.
The pop happens unconditionally; `hosts` is only set when the popped value is
truthy (present and non-empty). -/
def resolveNodes (cluster : List CephNode) (spec : ServiceSpecBlock) :
    Except PyErr ServiceSpecBlock := do
  let node_names := spec.placement.nodes
  let spec := { spec with placement := { spec.placement with nodes := none } }
  if truthyList node_names then
    let hosts ← get_hostnames cluster (node_names.getD [])
    pure { spec with placement := { spec.placement with hosts := some hosts } }
  else
    pure spec

/-- Python `str.split(sep)` for a one-character separator, at the `List Char`
level. -/
def splitOnChar (sep : Char) : List Char → List (List Char)
  | [] => [[]]
  | c :: cs =>
    let rest := splitOnChar sep cs
    if c = sep then [] :: rest
    else
      match rest with
      | [] => [[c]]
      | l :: ls => (c :: l) :: ls

/-- Python `str.split(sep)` for a one-character separator. -/
def pySplit (sep : Char) (s : String) : List String :=
  (splitOnChar sep s.data).map String.mk

/-- Python `sep.join(parts)`. -/
def pyJoin (sep : String) : List String → String
  | [] => ""
  | [x] => x
  | x :: y :: ys => x ++ sep ++ pyJoin sep (y :: ys)

/-- `GenerateServiceSpec.generate_host_spec`: resolve each entry of the
top-level `nodes` list in order, building one host entry per node with
`hostname` always set and `address`/`labels` set only when the corresponding
flag is truthy; hand the list to the `host` template.  `spec["nodes"]` raises
`KeyError` when absent.  The block itself is not mutated. -/
def generate_host_spec (cluster : List CephNode) (spec : ServiceSpecBlock) :
    Except PyErr RenderResult := do
  let node_names ← match spec.nodes with
    | some ns => Except.ok ns
    | none => Except.error PyErr.keyError
  let hosts ← node_names.mapM (fun node_name => do
    let node ← get_node_by_id cluster node_name
    pure { hostname := node.shortname,
           address := if spec.address then some node.ip_address else none,
           labels := if spec.labels then some node.role_list else none : HostEntry })
  pure ⟨spec, Rendered.hostTemplate hosts, []⟩

/-- `GenerateServiceSpec.generate_generic_spec` (the `common_svc_template`
renderer used by mon/mgr/alertmanager/crash/grafana/node-exporter/prometheus). -/
def generate_generic_spec (cluster : List CephNode) (spec0 : ServiceSpecBlock) :
    Except PyErr RenderResult := do
  let spec ← resolveNodes cluster spec0
  pure ⟨spec, Rendered.svcTemplate "common_svc_template" spec, []⟩

/-- `GenerateServiceSpec.generate_osd_spec`. -/
def generate_osd_spec (cluster : List CephNode) (spec0 : ServiceSpecBlock) :
    Except PyErr RenderResult := do
  let spec ← resolveNodes cluster spec0
  pure ⟨spec, Rendered.svcTemplate "osd" spec, []⟩

/-- `GenerateServiceSpec.generate_mds_spec`. -/
def generate_mds_spec (cluster : List CephNode) (spec0 : ServiceSpecBlock) :
    Except PyErr RenderResult := do
  let spec ← resolveNodes cluster spec0
  pure ⟨spec, Rendered.svcTemplate "mds" spec, []⟩

/-- `GenerateServiceSpec.generate_nfs_spec`. -/
def generate_nfs_spec (cluster : List CephNode) (spec0 : ServiceSpecBlock) :
    Except PyErr RenderResult := do
  let spec ← resolveNodes cluster spec0
  pure ⟨spec, Rendered.svcTemplate "nfs" spec, []⟩

/-- `GenerateServiceSpec.generate_rgw_spec`.  `genCert` models
`generate_self_signed_certificate` (from `utility.utils`, not under `src/`):
given the subject common name it returns the pair `(cert, key)`.  When the
inner spec's `rgw_frontend_ssl_certificate` equals `"create-cert"`, the common
name is `spec["placement"]["hosts"][0]` (`KeyError` when `hosts` is absent,
`IndexError` when it is empty), the field is replaced by
`"\n    ".join(("|\n" + key + cert).split("\n"))`, and for each node of role
`client` then each node of role `rgw` the certificate is written to
`/etc/pki/ca-trust/source/anchors/<service_id>.crt` followed by one
trust-store-refresh command (`spec["service_id"]` raises `KeyError` when
absent). -/
def generate_rgw_spec (genCert : String → String × String) (cluster : List CephNode)
    (spec0 : ServiceSpecBlock) : Except PyErr RenderResult := do
  let spec ← resolveNodes cluster spec0
  let inner ← match spec.spec with
    | some i => Except.ok i
    | none => Except.error PyErr.keyError
  if inner.rgw_frontend_ssl_certificate = some "create-cert" then
    let hs ← match spec.placement.hosts with
      | some hs => Except.ok hs
      | none => Except.error PyErr.keyError
    let first ← match hs with
      | [] => Except.error PyErr.indexError
      | h :: _ => Except.ok h
    let certKey := genCert first
    let cert := certKey.1
    let key := certKey.2
    let pem := key ++ cert
    let cert_value := "|\n" ++ pem
    let spec := { spec with
      spec := some { inner with
        rgw_frontend_ssl_certificate := some (pyJoin "\n    " (pySplit '\n' cert_value)) } }
    let clients := cluster.filter (fun n => n.role_list.contains "client")
    let rgws := cluster.filter (fun n => n.role_list.contains "rgw")
    let nodes := clients ++ rgws
    let effectLists ← nodes.mapM (fun node => do
      let sid ← match spec.service_id with
        | some s => Except.ok s
        | none => Except.error PyErr.keyError
      pure [Effect.remoteFileWrite node
              ("/etc/pki/ca-trust/source/anchors/" ++ sid ++ ".crt") cert,
            Effect.execCommand node "update-ca-trust enable && update-ca-trust extract"])
    pure ⟨spec, Rendered.svcTemplate "rgw" spec, effectLists.flatten⟩
  else
    pure ⟨spec, Rendered.svcTemplate "rgw" spec, []⟩

/-- `GenerateServiceSpec.COMMON_SERVICES`. -/
def COMMON_SERVICES : List String :=
  ["mon", "mgr", "alertmanager", "crash", "grafana", "node-exporter", "prometheus"]

/-- Defunctionalized render methods (the values of the `render_definitions`
dict plus the shared generic method). -/
inductive RenderMethod where
  | host
  | generic
  | osd
  | mds
  | nfs
  | rgw
  deriving DecidableEq, Repr

/-- `GenerateServiceSpec._get_render_method`: members of `COMMON_SERVICES` get
the generic renderer; otherwise the `render_definitions` dict is indexed by the
exact `service_type` string, and the resulting `KeyError` is re-raised as
`NotImplementedError`. -/
def _get_render_method (service_type : String) : Except PyErr RenderMethod :=
  if COMMON_SERVICES.contains service_type then Except.ok RenderMethod.generic
  else if service_type = "host" then Except.ok RenderMethod.host
  else if service_type = "osd" then Except.ok RenderMethod.osd
  else if service_type = "mds" then Except.ok RenderMethod.mds
  else if service_type = "nfs" then Except.ok RenderMethod.nfs
  else if service_type = "rgw" then Except.ok RenderMethod.rgw
  else Except.error PyErr.notImplementedError

/-- Apply one render method to one block (calling the bound method the
dispatcher returned). -/
def runRender (genCert : String → String × String) (cluster : List CephNode) :
    RenderMethod → ServiceSpecBlock → Except PyErr RenderResult
  | RenderMethod.host => generate_host_spec cluster
  | RenderMethod.generic => generate_generic_spec cluster
  | RenderMethod.osd => generate_osd_spec cluster
  | RenderMethod.mds => generate_mds_spec cluster
  | RenderMethod.nfs => generate_nfs_spec cluster
  | RenderMethod.rgw => generate_rgw_spec genCert cluster

/-- The loop body of `create_spec_file`: render every block in input order,
accumulating the per-block template outputs and side effects.  The first
exception aborts the whole build. -/
def renderAll (genCert : String → String × String) (cluster : List CephNode) :
    List ServiceSpecBlock → Except PyErr (List Rendered × List Effect)
  | [] => Except.ok ([], [])
  | spec :: rest => do
    let method ← _get_render_method spec.service_type
    let res ← runRender genCert cluster method spec
    let tail ← renderAll genCert cluster rest
    pure (res.out :: tail.1, res.effects ++ tail.2)

/-- `GenerateServiceSpec.create_spec_file`: the `Except.ok` value is the
document (fragment list, in block order) that gets concatenated and written to
the remote temp file; an `Except.error` means the exception propagated before
the file write, so no text is produced and no spec file is written.  The
source's `if not method: raise UnknownSpecFound(...)` guard is unreachable:
`_get_render_method` never returns a falsy value (it raises
`NotImplementedError` instead), which is mirrored here by the absence of any
`unknownSpecFound` code path. -/
def create_spec_file (genCert : String → String × String) (cluster : List CephNode)
    (specs : List ServiceSpecBlock) : Except PyErr (List Rendered × List Effect) :=
  renderAll genCert cluster specs

/-- First-match lookup in an association list (a Python dict read `d[k]` /
`k in d.keys()`; the dicts built below keep their keys unique, so first match
is the match). -/
def lookupA {β : Type} (k : String) : List (String × β) → Option β
  | [] => none
  | (k', v) :: rest => if k' = k then some v else lookupA k rest

/-- One record of the `ceph orch ps -f json` array, restricted to the keys the
code reads. -/
structure DaemonRecord where
  daemon_type : String
  daemon_id : String
  hostname : String
  deriving DecidableEq, Repr

/-- The `"<daemon_type>.<daemon_id>"` name built for each record. -/
def daemonName (r : DaemonRecord) : String :=
  r.daemon_type ++ "." ++ r.daemon_id

/-- In-place mutation of a dict entry's list value (`d[k].append(x)`): the
dicts built here keep their keys unique, so updating the first entry with the
key is the dict update. -/
def appendAt (k : String) (x : String) :
    List (String × List String) → List (String × List String)
  | [] => []
  | (k', v) :: rest =>
    if k' = k then (k', v ++ [x]) :: rest else (k', v) :: appendAt k x rest

/-- The loop body of `get_host_daemon_map`: append the daemon name to the
host's existing list, or start a new entry at the end of the dict. -/
def addDaemon (daemon_dict : List (String × List String)) (r : DaemonRecord) :
    List (String × List String) :=
  if (lookupA r.hostname daemon_dict).isSome then
    appendAt r.hostname (daemonName r) daemon_dict
  else
    daemon_dict ++ [(r.hostname, [daemonName r])]

/-- `get_host_daemon_map`: fold the parsed `orch ps` records into a host-name →
daemon-name-list dict (the JSON fetch and parse are external). -/
def get_host_daemon_map (records : List DaemonRecord) : List (String × List String) :=
  records.foldl addDaemon []

/-- One entry of the `nodes` array of `ceph osd tree -f json`, restricted to
the keys the code reads. -/
structure OsdTreeEntry where
  name : String
  type : String
  children : List Int
  deriving DecidableEq, Repr

/-- In-place overwrite of a dict entry's value: first entry with the key
(keys stay unique here). -/
def setAt (k : String) (v : List Int) :
    List (String × List Int) → List (String × List Int)
  | [] => []
  | (k', w) :: rest =>
    if k' = k then (k', v) :: rest else (k', w) :: setAt k v rest

/-- Python dict assignment `d[k] = v`: overwrite an existing key in place, or
append a new entry at the end. -/
def setKey (osd_dict : List (String × List Int)) (k : String) (v : List Int) :
    List (String × List Int) :=
  if (lookupA k osd_dict).isSome then
    setAt k v osd_dict
  else
    osd_dict ++ [(k, v)]

/-- `get_host_osd_map`: keep only tree entries whose `type` is `"host"`,
assigning `name → children` (the JSON fetch and parse are external). -/
def get_host_osd_map (tree : List OsdTreeEntry) : List (String × List Int) :=
  tree.foldl (fun d obj => if obj.type = "host" then setKey d obj.name obj.children else d) []

/-- `file_or_path_exists`: run `ls -l <path>` through the node's
`exec_command` (with sudo); `True` on success, and the `CommandFailed` raised
on failure is caught, logged and converted to `False` — the collaborator's
only failure mode (non-zero exit raises `CommandFailed`), so no exception
reaches the caller. -/
def file_or_path_exists (exec_command : String → Except CommandFailed String)
    (file_or_path : String) : Bool :=
  match exec_command ("ls -l " ++ file_or_path) with
  | Except.ok _ => true
  | Except.error _ => false

/-- `posixpath.join` for two components, as used via `os.path.join`. -/
def os_path_join (a b : String) : String :=
  if b.data.head? = some '/' then b
  else if a = "" ∨ a.data.getLast? = some '/' then a ++ b
  else a ++ "/" ++ b

/-- The `roles_to_validate` list of `validate_log_file_after_enable`. -/
def roles_to_validate : List String := ["mon", "mgr", "osd", "rgw", "mds"]

/-- The `daemon_valid` dict comprehension: per host, keep only daemons whose
name's first dot-component (`val.split(".")[0]`) is in `roles_to_validate`. -/
def daemonValid (daemon_dict : List (String × List String)) :
    List (String × List String) :=
  daemon_dict.map (fun kv =>
    (kv.1, kv.2.filter (fun val => roles_to_validate.contains ((pySplit '.' val).headD ""))))

/-- Python's substring containment test `needle in hay`. -/
def pyInStr (needle hay : String) : Bool :=
  decide (needle.data <:+: hay.data)

/-- The expected log file for one daemon: `ceph-<daemon>.log` under the log
directory, except that a daemon whose name contains `"rgw"` as a substring
(`if "rgw" in daemon:`) uses `ceph-client.<daemon>.log`. -/
def logFileFor (log_file_path : String) (daemon : String) : String :=
  if pyInStr "rgw" daemon then
    os_path_join log_file_path ("ceph-client." ++ daemon ++ ".log")
  else
    os_path_join log_file_path ("ceph-" ++ daemon ++ ".log")

/-- The inner daemon loop of `validate_log_file_after_enable` on one node:
check each expected log file in order through `file_or_path_exists`, stopping
with `False` at the first missing one.  Also returns the trace of
`(node, file)` existence checks actually performed. -/
def checkDaemons (ex : CephNode → String → Except CommandFailed String)
    (log_file_path : String) (node : CephNode) :
    List String → Bool × List (CephNode × String)
  | [] => (true, [])
  | daemon :: rest =>
    let file := logFileFor log_file_path daemon
    if file_or_path_exists (ex node) file then
      let tail := checkDaemons ex log_file_path node rest
      (tail.1, (node, file) :: tail.2)
    else
      (false, [(node, file)])

/-- The outer node loop of `validate_log_file_after_enable`: skip nodes whose
hostname is not a key of `daemon_valid`, and stop with `False` as soon as one
node's check fails.  (The `except CommandFailed` inside the loop is
unreachable: `file_or_path_exists` already catches `CommandFailed` itself.) -/
def checkNodes (ex : CephNode → String → Except CommandFailed String)
    (log_file_path : String) (daemon_valid : List (String × List String)) :
    List CephNode → Bool × List (CephNode × String)
  | [] => (true, [])
  | node :: rest =>
    match lookupA node.hostname daemon_valid with
    | none => checkNodes ex log_file_path daemon_valid rest
    | some daemons =>
      let here := checkDaemons ex log_file_path node daemons
      if here.1 then
        let tail := checkNodes ex log_file_path daemon_valid rest
        (tail.1, here.2 ++ tail.2)
      else
        (false, here.2)

/-- `validate_log_file_after_enable`, given the (externally obtained) stripped
`ceph fsid` output, the parsed `orch ps` records, the cluster node list and
the per-node remote-execution collaborator.  Returns the boolean result paired
with the trace of per-file existence checks performed. -/
def validate_log_file_after_enable (ex : CephNode → String → Except CommandFailed String)
    (fsid : String) (records : List DaemonRecord) (cluster_nodes : List CephNode) :
    Bool × List (CephNode × String) :=
  let log_file_path := os_path_join "/var/log/ceph" fsid
  let daemon_dict := get_host_daemon_map records
  let dv := daemonValid daemon_dict
  checkNodes ex log_file_path dv cluster_nodes

/-- All existence checks `validate_log_file_after_enable` would perform were
every file present: nodes in cluster order, a node's daemons in map order. -/
def expected_checks (log_file_path : String) (daemon_valid : List (String × List String)) :
    List CephNode → List (CephNode × String)
  | [] => []
  | node :: rest =>
    match lookupA node.hostname daemon_valid with
    | none => expected_checks log_file_path daemon_valid rest
    | some daemons =>
      daemons.map (fun d => (node, logFileFor log_file_path d)) ++
        expected_checks log_file_path daemon_valid rest

/-- The prefix of a check list up to and including the first failing check
(the whole list when every check passes): the short-circuit behaviour the
spec claims. -/
def takeThroughFirstFail {α : Type} (p : α → Bool) : List α → List α
  | [] => []
  | c :: rest => if p c then c :: takeThroughFirstFail p rest else [c]

/-- The renderer kinds the dispatcher recognizes, as the spec enumerates them:
the common services plus the `render_definitions` keys. -/
def recognizedServiceTypes : List String :=
  COMMON_SERVICES ++ ["host", "osd", "mds", "nfs", "rgw"]

/-- A YAML literal block as the spec describes the generated certificate
field: the `|` indicator followed by the content's lines, each on its own
line indented by 4 spaces. -/
def yamlLiteralBlock4 (content : String) : String :=
  "|" ++ String.join ((pySplit '\n' content).map (fun line => "\n    " ++ line))

/-- The per-daemon log path as the amended claim states it:
`/var/log/ceph/<fsid>/ceph-<daemon>.log`, except that a daemon whose name
contains `"rgw"` as a substring uses `ceph-client.<daemon>.log`. -/
def claimedLogFile (fsid daemon : String) : String :=
  if pyInStr "rgw" daemon then
    "/var/log/ceph/" ++ fsid ++ "/" ++ ("ceph-client." ++ daemon ++ ".log")
  else
    "/var/log/ceph/" ++ fsid ++ "/" ++ ("ceph-" ++ daemon ++ ".log")

/-- The existence checks the amended claim says are performed: for each
cluster node appearing in the host→daemons map, each of its daemons whose
name's first dot-component is in {mon, mgr, osd, rgw, mds}, at the claimed
log path. -/
def claimed_checks (fsid : String) (daemon_dict : List (String × List String)) :
    List CephNode → List (CephNode × String)
  | [] => []
  | node :: rest =>
    match lookupA node.hostname daemon_dict with
    | none => claimed_checks fsid daemon_dict rest
    | some daemons =>
      (daemons.filter (fun d => roles_to_validate.contains ((pySplit '.' d).headD ""))).map
        (fun d => (node, claimedLogFile fsid d)) ++ claimed_checks fsid daemon_dict rest

/-- A concrete certificate generator used for witnesses. -/
def demoGenCert : String → String × String :=
  fun cn => ("CERT-" ++ cn ++ "\nEND\n", "KEY\nK2\n")

/-- A concrete client-role node. -/
def demoClient : CephNode := ⟨"node1", "c1", "c1h", "10.0.0.1", ["client"]⟩

/-- A concrete rgw-role node. -/
def demoRgw : CephNode := ⟨"node2", "r1", "r1h", "10.0.0.2", ["rgw"]⟩

/-- A concrete two-node cluster. -/
def demoCluster : List CephNode := [demoClient, demoRgw]

/-- A block with an unrecognized service type. -/
def bogusBlock : ServiceSpecBlock := { service_type := "bogus" }

/-- An inner spec carrying the `create-cert` sentinel. -/
def demoInner : InnerSpec := { rgw_frontend_ssl_certificate := some "create-cert" }

/-- An rgw block with resolvable placement nodes and the sentinel. -/
def demoRgwBlock : ServiceSpecBlock :=
  { service_type := "rgw", service_id := some "foo.bar",
    placement := { nodes := some ["node2"] }, spec := some demoInner }

/-- An rgw block with the sentinel but no host-selection at all (e.g. a
count- or pattern-based placement). -/
def demoRgwNoHosts : ServiceSpecBlock :=
  { service_type := "rgw", spec := some demoInner }

/-- A mon block whose placement carries an empty `nodes` list. -/
def demoMonEmptyNodes : ServiceSpecBlock :=
  { service_type := "mon", placement := { nodes := some [] } }

/-- A mon block whose placement names one node. -/
def demoMonNodes : ServiceSpecBlock :=
  { service_type := "mon", placement := { nodes := some ["node1"] } }

/-- A host block with both the address and the labels flag unset. -/
def demoHostBlock : ServiceSpecBlock :=
  { service_type := "host", nodes := some ["node1", "node2"] }

/-- A remote executor whose every command fails. -/
def demoFailingCmd : String → Except CommandFailed String :=
  fun _ => Except.error ⟨"ls failed"⟩

/-- An OSD tree with two host-type entries sharing one name plus one non-host
entry. -/
def dupHostTree : List OsdTreeEntry :=
  [⟨"hostA", "host", [1]⟩, ⟨"hostA", "host", [2]⟩, ⟨"osd0", "osd", []⟩]

/-- The result of rendering `demoMonNodes` with the generic renderer. -/
def demoMonRes : RenderResult :=
  { block := { service_type := "mon", placement := { nodes := none, hosts := some ["c1"] } },
    out := Rendered.svcTemplate "common_svc_template"
      { service_type := "mon", placement := { nodes := none, hosts := some ["c1"] } },
    effects := [] }

/-- `demoRgwBlock` after node resolution. -/
def demoRgwResolved : ServiceSpecBlock :=
  { service_type := "rgw", service_id := some "foo.bar",
    placement := { nodes := none, hosts := some ["r1"] }, spec := some demoInner }

/-!  Helper lemmas about association lists and the dict operations. -/

instance {ε α : Type} [DecidableEq ε] [DecidableEq α] : DecidableEq (Except ε α) :=
  fun x y =>
    match x, y with
    | Except.ok a, Except.ok b =>
      if h : a = b then Decidable.isTrue (congrArg Except.ok h)
      else Decidable.isFalse (fun e => h (Except.ok.inj e))
    | Except.error a, Except.error b =>
      if h : a = b then Decidable.isTrue (congrArg Except.error h)
      else Decidable.isFalse (fun e => h (Except.error.inj e))
    | Except.ok _, Except.error _ => Decidable.isFalse (fun e => Except.noConfusion e)
    | Except.error _, Except.ok _ => Decidable.isFalse (fun e => Except.noConfusion e)

theorem except_bind_ok {ε α β : Type} (a : α) (f : α → Except ε β) :
    (Except.ok a >>= f : Except ε β) = f a := rfl

theorem except_bind_error {ε α β : Type} (e : ε) (f : α → Except ε β) :
    (Except.error e >>= f : Except ε β) = Except.error e := rfl

theorem except_pure {ε α : Type} (a : α) : (pure a : Except ε α) = Except.ok a := rfl

theorem except_bind_ok_inv {ε α β : Type} {x : Except ε α} {f : α → Except ε β} {b : β}
    (h : (x >>= f) = Except.ok b) : ∃ a, x = Except.ok a ∧ f a = Except.ok b := by
  cases x with
  | ok a => exact ⟨a, rfl, h⟩
  | error e =>
    rw [except_bind_error] at h
    cases h

theorem lookupA_append {β : Type} (k : String) (d e : List (String × β)) :
    lookupA k (d ++ e) = (lookupA k d).or (lookupA k e) := by
  induction d with
  | nil => simp [lookupA]
  | cons kv rest ih =>
    obtain ⟨k', v⟩ := kv
    by_cases hk : k' = k <;> simp [lookupA, hk, ih]

theorem lookupA_appendAt (k x h : String) (d : List (String × List String)) :
    lookupA h (appendAt k x d) =
      if k = h then (lookupA h d).map (fun v => v ++ [x]) else lookupA h d := by
  induction d with
  | nil => by_cases hh : k = h <;> simp [appendAt, lookupA, hh]
  | cons kv rest ih =>
    obtain ⟨k', v⟩ := kv
    by_cases hk : k' = k
    · by_cases hh : k' = h
      · have hkh : k = h := by rw [← hk]; exact hh
        simp [appendAt, lookupA, hk, hh, hkh]
      · have hkh : ¬k = h := by rw [← hk]; exact hh
        simp [appendAt, lookupA, hk, hh, hkh]
    · by_cases hh : k' = h
      · have hkh : ¬k = h := by
          intro e
          exact hk (by rw [hh, ← e])
        have hhk : ¬h = k := fun e => hkh e.symm
        simp [appendAt, lookupA, hk, hh, hkh, hhk]
      · simp [appendAt, lookupA, hk, hh, ih]

theorem lookupA_setAt (k : String) (v : List Int) (h : String)
    (d : List (String × List Int)) :
    lookupA h (setAt k v d) =
      if k = h then (lookupA h d).map (fun _ => v) else lookupA h d := by
  induction d with
  | nil => by_cases hh : k = h <;> simp [setAt, lookupA, hh]
  | cons kv rest ih =>
    obtain ⟨k', w⟩ := kv
    by_cases hk : k' = k
    · by_cases hh : k' = h
      · have hkh : k = h := by rw [← hk]; exact hh
        simp [setAt, lookupA, hk, hh, hkh]
      · have hkh : ¬k = h := by rw [← hk]; exact hh
        simp [setAt, lookupA, hk, hh, hkh]
    · by_cases hh : k' = h
      · have hkh : ¬k = h := by
          intro e
          exact hk (by rw [hh, ← e])
        have hhk : ¬h = k := fun e => hkh e.symm
        simp [setAt, lookupA, hk, hh, hkh, hhk]
      · simp [setAt, lookupA, hk, hh, ih]

theorem lookupA_addDaemon (d : List (String × List String)) (r : DaemonRecord)
    (h : String) :
    lookupA h (addDaemon d r) =
      if r.hostname = h then some (((lookupA h d).getD []) ++ [daemonName r])
      else lookupA h d := by
  unfold addDaemon
  by_cases hs : (lookupA r.hostname d).isSome
  · rw [if_pos hs, lookupA_appendAt]
    by_cases hh : r.hostname = h
    · subst hh
      obtain ⟨w, hw⟩ := Option.isSome_iff_exists.mp hs
      simp [hw]
    · simp [hh]
  · rw [if_neg hs, lookupA_append]
    by_cases hh : r.hostname = h
    · subst hh
      have hn : lookupA r.hostname d = none := Option.not_isSome_iff_eq_none.mp hs
      simp [hn, lookupA]
    · have hz : lookupA h [(r.hostname, [daemonName r])] = none := by
        simp [lookupA, hh]
      simp [hz, hh]

theorem lookupA_setKey (d : List (String × List Int)) (k : String) (v : List Int)
    (h : String) :
    lookupA h (setKey d k v) = if k = h then some v else lookupA h d := by
  unfold setKey
  by_cases hs : (lookupA k d).isSome
  · rw [if_pos hs, lookupA_setAt]
    by_cases hh : k = h
    · subst hh
      obtain ⟨w, hw⟩ := Option.isSome_iff_exists.mp hs
      simp [hw]
    · simp [hh]
  · rw [if_neg hs, lookupA_append]
    by_cases hh : k = h
    · subst hh
      have hn : lookupA k d = none := Option.not_isSome_iff_eq_none.mp hs
      simp [hn, lookupA]
    · have hz : lookupA h [(k, v)] = none := by simp [lookupA, hh]
      simp [hz, hh]

theorem daemon_foldl_lookup (h : String) :
    ∀ (records : List DaemonRecord) (acc : List (String × List String)),
      lookupA h (records.foldl addDaemon acc) =
        match lookupA h acc with
        | some l =>
          some (l ++ (records.filter (fun r => r.hostname == h)).map daemonName)
        | none =>
          if records.any (fun r => r.hostname == h) then
            some ((records.filter (fun r => r.hostname == h)).map daemonName)
          else none
  | [], acc => by
    cases hacc : lookupA h acc <;> simp [hacc]
  | r :: rs, acc => by
    rw [List.foldl_cons, daemon_foldl_lookup h rs (addDaemon acc r),
      lookupA_addDaemon]
    by_cases hr : r.hostname = h
    · rw [if_pos hr]
      cases hacc : lookupA h acc with
      | none => simp [hacc, hr, List.filter_cons, List.any_cons]
      | some l => simp [hacc, hr, List.filter_cons, List.any_cons]
    · rw [if_neg hr]
      have hbeq : (r.hostname == h) = false := by
        simp [hr]
      cases hacc : lookupA h acc with
      | none => simp [hacc, List.filter_cons, List.any_cons, hbeq]
      | some l => simp [hacc, List.filter_cons, List.any_cons, hbeq]

theorem osd_foldl_lookup (h : String) :
    ∀ (tree : List OsdTreeEntry) (acc : List (String × List Int)),
      lookupA h
          (tree.foldl
            (fun d obj => if obj.type = "host" then setKey d obj.name obj.children else d)
            acc) =
        (((tree.filter (fun o => o.type == "host" && o.name == h)).getLast?).map
            (fun o => o.children)).or (lookupA h acc)
  | [], acc => by simp
  | o :: os, acc => by
    rw [List.foldl_cons, osd_foldl_lookup h os]
    by_cases hp : (o.type == "host" && o.name == h) = true
    · have hhost : o.type = "host" := beq_iff_eq.mp (Bool.and_eq_true_iff.mp hp).1
      have hname : o.name = h := beq_iff_eq.mp (Bool.and_eq_true_iff.mp hp).2
      have hfc : (o :: os).filter (fun o => o.type == "host" && o.name == h) =
          o :: os.filter (fun o => o.type == "host" && o.name == h) := by
        simp [List.filter_cons, hp]
      rw [hfc, if_pos hhost,
        show (o :: os.filter (fun o => o.type == "host" && o.name == h)) =
          [o] ++ os.filter (fun o => o.type == "host" && o.name == h) from rfl,
        List.getLast?_append]
      cases hlast : (os.filter (fun o => o.type == "host" && o.name == h)).getLast? with
      | some b => simp
      | none => simp [lookupA_setKey, hname]
    · have hfc : (o :: os).filter (fun o => o.type == "host" && o.name == h) =
          os.filter (fun o => o.type == "host" && o.name == h) := by
        simp [List.filter_cons, hp]
      rw [hfc]
      by_cases hhost : o.type = "host"
      · have hname : ¬o.name = h := by
          intro e
          exact hp (by simp [hhost, e])
        rw [if_pos hhost, lookupA_setKey, if_neg hname]
      · rw [if_neg hhost]

theorem renderAll_error_of_bad (genCert : String → String × String)
    (cluster : List CephNode) (b : ServiceSpecBlock) (post : List ServiceSpecBlock)
    (hb : _get_render_method b.service_type = Except.error PyErr.notImplementedError) :
    ∀ pre : List ServiceSpecBlock,
      ∃ e, renderAll genCert cluster (pre ++ b :: post) = Except.error e
  | [] => ⟨PyErr.notImplementedError, by
      simp [renderAll, hb, except_bind_error]⟩
  | p :: pre => by
    cases hm : _get_render_method p.service_type with
    | error e => exact ⟨e, by simp [renderAll, hm, except_bind_error]⟩
    | ok m =>
      cases hr : runRender genCert cluster m p with
      | error e => exact ⟨e, by simp [renderAll, hm, hr, except_bind_ok, except_bind_error]⟩
      | ok r =>
        obtain ⟨e, he⟩ := renderAll_error_of_bad genCert cluster b post hb pre
        exact ⟨e, by simp [renderAll, hm, hr, he, except_bind_ok, except_bind_error]⟩

/-!  Claim theorems. -/

/-- C1, counterexample: building a document containing a block whose
`service_type` is `"bogus"` fails with `NotImplementedError` — not with
`UnknownSpecFound` (whose guard in `create_spec_file` is unreachable) and not
with any `UnsupportedServiceType`. -/
theorem bogus_service_type_raises_NotImplementedError :
    create_spec_file demoGenCert demoCluster [bogusBlock] =
      Except.error PyErr.notImplementedError ∧
    PyErr.notImplementedError ≠ PyErr.unknownSpecFound := by
  constructor
  · decide
  · decide

/-- C1 (amended): for every service block whose `service_type` is not one of
the recognized renderer kinds, dispatching it fails with
`NotImplementedError`, and building any document containing such a block
fails with an exception (so no rendered text is contributed and no spec file
is written). -/
theorem unrecognized_service_type_fails_without_output (service_type : String)
    (h : service_type ∉ recognizedServiceTypes) :
    _get_render_method service_type = Except.error PyErr.notImplementedError ∧
    ∀ (genCert : String → String × String) (cluster : List CephNode)
      (pre post : List ServiceSpecBlock) (b : ServiceSpecBlock),
      b.service_type = service_type →
      ∃ e, create_spec_file genCert cluster (pre ++ b :: post) = Except.error e := by
  have hc : ¬COMMON_SERVICES.contains service_type = true := by
    intro hct
    exact h (List.mem_append.mpr (Or.inl (by simpa using hct)))
  have hhost : ¬service_type = "host" := by
    intro e
    exact h (by rw [e]; decide)
  have hosd : ¬service_type = "osd" := by
    intro e
    exact h (by rw [e]; decide)
  have hmds : ¬service_type = "mds" := by
    intro e
    exact h (by rw [e]; decide)
  have hnfs : ¬service_type = "nfs" := by
    intro e
    exact h (by rw [e]; decide)
  have hrgw : ¬service_type = "rgw" := by
    intro e
    exact h (by rw [e]; decide)
  have hdisp : _get_render_method service_type = Except.error PyErr.notImplementedError := by
    unfold _get_render_method
    rw [if_neg hc, if_neg hhost, if_neg hosd, if_neg hmds, if_neg hnfs, if_neg hrgw]
  refine ⟨hdisp, ?_⟩
  intro genCert cluster pre post b hb
  exact renderAll_error_of_bad genCert cluster b post (by rw [hb]; exact hdisp) pre

/-- C1, witness: the amended claim applied to the concrete type `"bogus"` in a
one-block document. -/
theorem unrecognized_service_type_witness :
    ("bogus" ∉ recognizedServiceTypes) ∧
    ∃ e, create_spec_file demoGenCert demoCluster ([] ++ bogusBlock :: []) =
      Except.error e :=
  ⟨by decide,
    (unrecognized_service_type_fails_without_output "bogus" (by decide)).2
      demoGenCert demoCluster [] [] bogusBlock rfl⟩

/-- C6: `file_or_path_exists` returns true exactly when the underlying
`ls -l <path>` command succeeds, and returns false (total, no exception
escapes) whenever the command fails with `CommandFailed` — the
collaborator's only failure mode. -/
theorem path_exists_true_iff_command_ok
    (exec_command : String → Except CommandFailed String) (file_or_path : String) :
    (file_or_path_exists exec_command file_or_path = true ↔
      ∃ out, exec_command ("ls -l " ++ file_or_path) = Except.ok out) ∧
    (∀ err, exec_command ("ls -l " ++ file_or_path) = Except.error err →
      file_or_path_exists exec_command file_or_path = false) := by
  unfold file_or_path_exists
  cases hc : exec_command ("ls -l " ++ file_or_path) <;> simp [hc]

/-- C6, witness: at a concrete always-failing executor the result is false,
not an exception. -/
theorem path_exists_witness :
    (demoFailingCmd ("ls -l " ++ "/var/log/ceph/x") = Except.error ⟨"ls failed"⟩) ∧
    file_or_path_exists demoFailingCmd "/var/log/ceph/x" = false :=
  ⟨rfl,
    (path_exists_true_iff_command_ok demoFailingCmd "/var/log/ceph/x").2 ⟨"ls failed"⟩ rfl⟩

/-- C7: `get_host_daemon_map` maps each hostname occurring in the records to
the `"<daemon_type>.<daemon_id>"` names of exactly its daemons, in input
order (first seen first, later daemons of the same host appended at the
end); hostnames not occurring are absent. -/
theorem host_daemon_map_lookup_eq_filtered_names (records : List DaemonRecord)
    (h : String) :
    lookupA h (get_host_daemon_map records) =
      if records.any (fun r => r.hostname == h) then
        some ((records.filter (fun r => r.hostname == h)).map daemonName)
      else none := by
  have hfold := daemon_foldl_lookup h records []
  simpa [get_host_daemon_map, lookupA] using hfold

/-- C8, counterexample: an OSD tree with two host-type entries of the same
name and one non-host entry yields a mapping with one key, not two; the
earlier entry's children are overwritten. -/
theorem osd_map_duplicate_host_names_collapse :
    get_host_osd_map dupHostTree = [("hostA", [2])] ∧
    (get_host_osd_map dupHostTree).length = 1 ∧
    (dupHostTree.filter (fun o => o.type == "host")).length = 2 ∧
    ¬(get_host_osd_map dupHostTree).length = 2 := by
  refine ⟨by decide, by decide, by decide, by decide⟩

/-- C8 (amended): `get_host_osd_map` maps a name to the `children` of the
last host-type entry bearing that name (so its key set is exactly the set of
names of host-type entries, with duplicate names collapsed); when all
host-type entries have distinct names, each is mapped to its own children
list. -/
theorem osd_map_lookup_eq_last_host_entry (tree : List OsdTreeEntry) (h : String) :
    lookupA h (get_host_osd_map tree) =
      ((tree.filter (fun o => o.type == "host" && o.name == h)).getLast?).map
        (fun o => o.children) ∧
    ((lookupA h (get_host_osd_map tree)).isSome ↔
      h ∈ (tree.filter (fun o => o.type == "host")).map (fun o => o.name)) := by
  have hmain : lookupA h (get_host_osd_map tree) =
      ((tree.filter (fun o => o.type == "host" && o.name == h)).getLast?).map
        (fun o => o.children) := by
    have hfold := osd_foldl_lookup h tree []
    simpa [get_host_osd_map, lookupA] using hfold
  refine ⟨hmain, ?_⟩
  rw [hmain]
  rw [Option.isSome_map']
  rw [List.getLast?_isSome]
  constructor
  · intro hne
    obtain ⟨o, ho⟩ := List.exists_mem_of_ne_nil _ hne
    have hmem := List.mem_filter.mp ho
    have hhost : o.type = "host" := beq_iff_eq.mp (Bool.and_eq_true_iff.mp hmem.2).1
    have hname : o.name = h := beq_iff_eq.mp (Bool.and_eq_true_iff.mp hmem.2).2
    exact List.mem_map.mpr ⟨o, List.mem_filter.mpr ⟨hmem.1, by simp [hhost]⟩, hname⟩
  · intro hmem hnil
    obtain ⟨o, ho, hname⟩ := List.mem_map.mp hmem
    have hf := List.mem_filter.mp ho
    have : o ∈ tree.filter (fun o => o.type == "host" && o.name == h) :=
      List.mem_filter.mpr ⟨hf.1, by simp [beq_iff_eq.mp hf.2, hname]⟩
    rw [hnil] at this
    exact (List.not_mem_nil o) this

theorem resolveNodes_cons (cluster : List CephNode) (spec : ServiceSpecBlock)
    (a : String) (l : List String) (hs : List String)
    (hn : spec.placement.nodes = some (a :: l))
    (hh : get_hostnames cluster (a :: l) = Except.ok hs) :
    resolveNodes cluster spec =
      Except.ok { spec with placement := { nodes := none, hosts := some hs } } := by
  unfold resolveNodes
  rw [hn]
  simp [truthyList, hh, except_bind_ok]

theorem resolveNodes_not_truthy (cluster : List CephNode) (spec : ServiceSpecBlock)
    (hnt : truthyList spec.placement.nodes = false) :
    resolveNodes cluster spec =
      Except.ok { spec with placement := { spec.placement with nodes := none } } := by
  unfold resolveNodes
  simp [hnt]
  rfl

theorem runRender_block_eq_resolved (genCert : String → String × String)
    (cluster : List CephNode) (m : RenderMethod) (hm : m ≠ RenderMethod.host)
    (spec spec' : ServiceSpecBlock)
    (hres : resolveNodes cluster spec = Except.ok spec')
    (res : RenderResult) (hrun : runRender genCert cluster m spec = Except.ok res) :
    res.block.placement = spec'.placement := by
  cases m with
  | host => exact absurd rfl hm
  | generic =>
    simp only [runRender, generate_generic_spec] at hrun
    rw [hres, except_bind_ok] at hrun
    cases hrun
    rfl
  | osd =>
    simp only [runRender, generate_osd_spec] at hrun
    rw [hres, except_bind_ok] at hrun
    cases hrun
    rfl
  | mds =>
    simp only [runRender, generate_mds_spec] at hrun
    rw [hres, except_bind_ok] at hrun
    cases hrun
    rfl
  | nfs =>
    simp only [runRender, generate_nfs_spec] at hrun
    rw [hres, except_bind_ok] at hrun
    cases hrun
    rfl
  | rgw =>
    simp only [runRender, generate_rgw_spec] at hrun
    rw [hres, except_bind_ok] at hrun
    cases hspec : spec'.spec with
    | none =>
      rw [hspec] at hrun
      simp only [except_bind_error] at hrun
      cases hrun
    | some inner =>
      rw [hspec] at hrun
      simp only [except_bind_ok] at hrun
      by_cases hcert : inner.rgw_frontend_ssl_certificate = some "create-cert"
      · rw [if_pos hcert] at hrun
        cases hhosts : spec'.placement.hosts with
        | none =>
          rw [hhosts] at hrun
          simp only [except_bind_error] at hrun
          cases hrun
        | some hs =>
          rw [hhosts] at hrun
          simp only [except_bind_ok] at hrun
          cases hs with
          | nil =>
            simp only [except_bind_error] at hrun
            cases hrun
          | cons h0 rest =>
            simp only [except_bind_ok] at hrun
            obtain ⟨effs, heffs, hrun⟩ := except_bind_ok_inv hrun
            cases hrun
            rfl
      · rw [if_neg hcert] at hrun
        cases hrun
        rfl

theorem mapM_bind_pure {ε α β γ : Type} (f : α → Except ε β) (g : β → γ) :
    ∀ (ids : List α) (nds : List β), ids.mapM f = Except.ok nds →
      ids.mapM (fun i => do
        let n ← f i
        pure (g n)) = Except.ok (nds.map g)
  | [], nds => by
    intro h
    simp only [List.mapM_nil] at h ⊢
    cases h
    rfl
  | i :: is, nds => by
    intro h
    rw [List.mapM_cons] at h
    cases hfi : f i with
    | error e => rw [hfi, except_bind_error] at h; cases h
    | ok n =>
      rw [hfi, except_bind_ok] at h
      cases hrest : is.mapM f with
      | error e => rw [hrest, except_bind_error] at h; cases h
      | ok rest =>
        rw [hrest, except_bind_ok] at h
        cases h
        rw [List.mapM_cons, hfi, mapM_bind_pure f g is rest hrest]
        simp only [except_bind_ok, except_pure, List.map_cons]

theorem mapM_ok_length {ε α β : Type} (f : α → Except ε β) :
    ∀ (ids : List α) (nds : List β), ids.mapM f = Except.ok nds →
      nds.length = ids.length
  | [], nds => by
    intro h
    simp only [List.mapM_nil] at h
    cases h
    rfl
  | i :: is, nds => by
    intro h
    rw [List.mapM_cons] at h
    cases hfi : f i with
    | error e => rw [hfi, except_bind_error] at h; cases h
    | ok n =>
      rw [hfi, except_bind_ok] at h
      cases hrest : is.mapM f with
      | error e => rw [hrest, except_bind_error] at h; cases h
      | ok rest =>
        rw [hrest, except_bind_ok] at h
        cases h
        simp [mapM_ok_length f is rest hrest]

/-- C2, counterexample: a block whose placement carries `nodes` bound to the
empty list still has the key popped, but no `hosts` key is added afterwards
(the claim requires `hosts` bound to the resolved hostnames, here `some []`). -/
theorem empty_nodes_list_leaves_no_hosts_key :
    demoMonEmptyNodes.placement.nodes = some [] ∧
    (generate_generic_spec demoCluster demoMonEmptyNodes).toOption.map
      (fun r => (r.block.placement.nodes, r.block.placement.hosts)) =
      some (none, none) ∧
    (none : Option (List String)) ≠ some ([] : List String) := by
  refine ⟨rfl, by decide, by decide⟩

/-- C2 (amended): for every non-host render of a block whose placement maps
`nodes` to a non-empty list of identifiers, the returned block's placement
binds `hosts` to the resolved hostnames and no longer contains `nodes`; when
the list is empty, `nodes` is still removed but `hosts` is left untouched.
The render result carries the caller's block after this in-place mutation. -/
theorem placement_nodes_consumed (genCert : String → String × String)
    (cluster : List CephNode) (m : RenderMethod) (spec : ServiceSpecBlock)
    (ns hs : List String) (res : RenderResult)
    (hm : m ≠ RenderMethod.host)
    (hn : spec.placement.nodes = some ns)
    (hh : get_hostnames cluster ns = Except.ok hs)
    (hrun : runRender genCert cluster m spec = Except.ok res) :
    (ns ≠ [] → res.block.placement = { nodes := none, hosts := some hs }) ∧
    (ns = [] → res.block.placement = { nodes := none, hosts := spec.placement.hosts }) := by
  constructor
  · intro hne
    obtain ⟨a, l, rfl⟩ := List.exists_cons_of_ne_nil hne
    have hres := resolveNodes_cons cluster spec a l hs hn hh
    have hpl := runRender_block_eq_resolved genCert cluster m hm spec _ hres res hrun
    rw [hpl]
  · intro he
    subst he
    have hnt : truthyList spec.placement.nodes = false := by rw [hn]; rfl
    have hres := resolveNodes_not_truthy cluster spec hnt
    have hpl := runRender_block_eq_resolved genCert cluster m hm spec _ hres res hrun
    rw [hpl]

/-- C2, witness: the generic renderer on a concrete mon block with
`nodes = ["node1"]` yields a block whose placement is
`{hosts := ["c1"]}` with `nodes` gone. -/
theorem placement_nodes_consumed_witness :
    (RenderMethod.generic ≠ RenderMethod.host) ∧
    demoMonNodes.placement.nodes = some ["node1"] ∧
    get_hostnames demoCluster ["node1"] = Except.ok ["c1"] ∧
    runRender demoGenCert demoCluster RenderMethod.generic demoMonNodes =
      Except.ok demoMonRes ∧
    (["node1"] ≠ ([] : List String)) ∧
    demoMonRes.block.placement = { nodes := none, hosts := some ["c1"] } :=
  ⟨by decide, rfl, by decide, by decide, by decide,
    (placement_nodes_consumed demoGenCert demoCluster RenderMethod.generic demoMonNodes
      ["node1"] ["c1"] demoMonRes (by decide) rfl (by decide) (by decide)).1 (by decide)⟩

/-- C9: rendering a host block with both flags unset/false produces, for the
requested node-id list, exactly one host entry per id in the same order, each
entry carrying only the hostname (no address, no labels); the block itself is
unchanged and no side effect is performed. -/
theorem host_spec_entries_hostname_only (cluster : List CephNode)
    (spec : ServiceSpecBlock) (ids : List String) (nds : List CephNode)
    (haddr : spec.address = false) (hlab : spec.labels = false)
    (hn : spec.nodes = some ids)
    (hres : ids.mapM (get_node_by_id cluster) = Except.ok nds) :
    generate_host_spec cluster spec =
      Except.ok ⟨spec,
        Rendered.hostTemplate (nds.map (fun n => { hostname := n.shortname })),
        []⟩ ∧
    nds.length = ids.length := by
  refine ⟨?_, mapM_ok_length _ ids nds hres⟩
  have hmap := mapM_bind_pure (get_node_by_id cluster)
      (fun n : CephNode => ({ hostname := n.shortname } : HostEntry)) ids nds hres
  unfold generate_host_spec
  rw [hn]
  simp only [haddr, hlab, Bool.false_eq_true, if_false, except_bind_ok]
  rw [hmap]
  simp only [except_bind_ok, except_pure]

/-- C9, witness: a concrete host block over two nodes yields exactly the two
hostname-only entries in input order. -/
theorem host_spec_entries_hostname_only_witness :
    demoHostBlock.address = false ∧ demoHostBlock.labels = false ∧
    demoHostBlock.nodes = some ["node1", "node2"] ∧
    ["node1", "node2"].mapM (get_node_by_id demoCluster) =
      Except.ok [demoClient, demoRgw] ∧
    (generate_host_spec demoCluster demoHostBlock =
      Except.ok ⟨demoHostBlock,
        Rendered.hostTemplate
          ([demoClient, demoRgw].map (fun n => { hostname := n.shortname })), []⟩ ∧
     ([demoClient, demoRgw] : List CephNode).length = ["node1", "node2"].length) :=
  ⟨rfl, rfl, rfl, by decide,
    host_spec_entries_hostname_only demoCluster demoHostBlock ["node1", "node2"]
      [demoClient, demoRgw] rfl rfl rfl (by decide)⟩

/-- C10: when the inner spec carries the `create-cert` sentinel but the
placement, after node resolution, has no `hosts` key (count/pattern
placements, or an empty popped `nodes` list) or an empty `hosts` list, the
rgw renderer fails with `KeyError` resp. `IndexError` and renders nothing
(no `RenderResult`, hence no output and no trust-store writes). -/
theorem rgw_create_cert_requires_hosts (genCert : String → String × String)
    (cluster : List CephNode) (spec spec' : ServiceSpecBlock) (inner : InnerSpec)
    (hres : resolveNodes cluster spec = Except.ok spec')
    (hspec : spec'.spec = some inner)
    (hcert : inner.rgw_frontend_ssl_certificate = some "create-cert") :
    (spec'.placement.hosts = none →
      generate_rgw_spec genCert cluster spec = Except.error PyErr.keyError) ∧
    (spec'.placement.hosts = some [] →
      generate_rgw_spec genCert cluster spec = Except.error PyErr.indexError) := by
  constructor
  · intro hh
    simp [generate_rgw_spec, hres, hspec, hcert, hh, except_bind_ok, except_bind_error]
  · intro hh
    simp [generate_rgw_spec, hres, hspec, hcert, hh, except_bind_ok, except_bind_error]

/-- C10, witness: a concrete rgw block with the sentinel but a placement with
neither `nodes` nor `hosts` fails with `KeyError`. -/
theorem rgw_create_cert_requires_hosts_witness :
    resolveNodes demoCluster demoRgwNoHosts = Except.ok demoRgwNoHosts ∧
    demoRgwNoHosts.spec = some demoInner ∧
    demoInner.rgw_frontend_ssl_certificate = some "create-cert" ∧
    demoRgwNoHosts.placement.hosts = none ∧
    generate_rgw_spec demoGenCert demoCluster demoRgwNoHosts =
      Except.error PyErr.keyError :=
  ⟨by decide, rfl, rfl, rfl,
    (rgw_create_cert_requires_hosts demoGenCert demoCluster demoRgwNoHosts demoRgwNoHosts
      demoInner (by decide) rfl rfl).1 rfl⟩

theorem str_foldl_append (l : List String) :
    ∀ s : String, l.foldl (· ++ ·) s = s ++ l.foldl (· ++ ·) "" := by
  induction l with
  | nil => intro s; simp [String.append_empty]
  | cons x xs ih =>
    intro s
    rw [List.foldl_cons, List.foldl_cons, ih (s ++ x), ih ("" ++ x),
      String.empty_append, String.append_assoc]

theorem str_join_cons (a : String) (l : List String) :
    String.join (a :: l) = a ++ String.join l := by
  unfold String.join
  rw [List.foldl_cons, String.empty_append, str_foldl_append]

theorem splitOnChar_bar (l : List Char) :
    splitOnChar '\n' ('|' :: '\n' :: l) = ['|'] :: splitOnChar '\n' l := by
  simp [splitOnChar]

theorem pySplit_bar_nl (pem : String) :
    pySplit '\n' ("|\n" ++ pem) = "|" :: pySplit '\n' pem := by
  unfold pySplit
  rw [String.data_append]
  have hd : "|\n".data = ['|', '\n'] := rfl
  rw [hd, List.cons_append, List.cons_append, List.nil_append, splitOnChar_bar,
    List.map_cons]

theorem pyJoin_cons_eq (sep : String) (x : String) (xs : List String) :
    pyJoin sep (x :: xs) = x ++ String.join (xs.map (fun l => sep ++ l)) := by
  induction xs generalizing x with
  | nil => simp [pyJoin, String.join, String.append_empty]
  | cons y ys ih =>
    rw [pyJoin, ih y, List.map_cons, str_join_cons, String.append_assoc,
      String.append_assoc]

theorem join_split_literal (pem : String) :
    pyJoin "\n    " (pySplit '\n' ("|\n" ++ pem)) = yamlLiteralBlock4 pem := by
  rw [pySplit_bar_nl, pyJoin_cons_eq]
  rfl

theorem mapM_pure_list {ε α β : Type} (g : α → β) :
    ∀ l : List α, (l.mapM (fun a => (pure (g a) : Except ε β))) = Except.ok (l.map g)
  | [] => by simp only [List.mapM_nil, except_pure, List.map_nil]
  | a :: as => by
    rw [List.mapM_cons, mapM_pure_list g as]
    simp only [except_pure, except_bind_ok, List.map_cons]

/-- C3: rendering an rgw block whose inner spec carries the `create-cert`
sentinel (with a non-empty resolved `hosts` list and a `service_id`) replaces
the field by the YAML literal block holding the PEM private key followed by
the certificate — both produced by the certificate generator called with the
first resolved host as common name — with every line indented by 4 spaces;
and the performed side effects are exactly, for each client-role node and
then each rgw-role node, one write of the certificate to
`/etc/pki/ca-trust/source/anchors/<service_id>.crt` followed by one
trust-store-refresh command. -/
theorem rgw_create_cert_renders_and_distributes
    (genCert : String → String × String) (cluster : List CephNode)
    (spec spec' : ServiceSpecBlock) (inner : InnerSpec)
    (h0 : String) (rest : List String) (sid : String)
    (hres : resolveNodes cluster spec = Except.ok spec')
    (hspec : spec'.spec = some inner)
    (hcert : inner.rgw_frontend_ssl_certificate = some "create-cert")
    (hhosts : spec'.placement.hosts = some (h0 :: rest))
    (hsid : spec'.service_id = some sid) :
    generate_rgw_spec genCert cluster spec =
      Except.ok
        { block := { spec' with spec := some { inner with
            rgw_frontend_ssl_certificate :=
              some (yamlLiteralBlock4 ((genCert h0).2 ++ (genCert h0).1)) } },
          out := Rendered.svcTemplate "rgw" { spec' with spec := some { inner with
            rgw_frontend_ssl_certificate :=
              some (yamlLiteralBlock4 ((genCert h0).2 ++ (genCert h0).1)) } },
          effects :=
            ((cluster.filter (fun n => n.role_list.contains "client") ++
              cluster.filter (fun n => n.role_list.contains "rgw")).map (fun node =>
                [Effect.remoteFileWrite node
                    ("/etc/pki/ca-trust/source/anchors/" ++ sid ++ ".crt")
                    (genCert h0).1,
                  Effect.execCommand node
                    "update-ca-trust enable && update-ca-trust extract"])).flatten } := by
  unfold generate_rgw_spec
  rw [hres, except_bind_ok, hspec]
  simp only [except_bind_ok]
  rw [if_pos hcert, hhosts]
  simp only [except_bind_ok]
  simp only [hsid, except_bind_ok]
  rw [mapM_pure_list]
  simp only [except_bind_ok, except_pure, join_split_literal]

/-- C3, witness: the theorem at a concrete cluster with one client-role and
one rgw-role node, a resolvable single-node placement, and a concrete
certificate generator. -/
theorem rgw_create_cert_witness :
    resolveNodes demoCluster demoRgwBlock = Except.ok demoRgwResolved ∧
    demoRgwResolved.spec = some demoInner ∧
    demoInner.rgw_frontend_ssl_certificate = some "create-cert" ∧
    demoRgwResolved.placement.hosts = some ("r1" :: []) ∧
    demoRgwResolved.service_id = some "foo.bar" ∧
    generate_rgw_spec demoGenCert demoCluster demoRgwBlock =
      Except.ok
        { block := { demoRgwResolved with spec := some { demoInner with
            rgw_frontend_ssl_certificate :=
              some (yamlLiteralBlock4 ((demoGenCert "r1").2 ++ (demoGenCert "r1").1)) } },
          out := Rendered.svcTemplate "rgw" { demoRgwResolved with spec := some { demoInner with
            rgw_frontend_ssl_certificate :=
              some (yamlLiteralBlock4 ((demoGenCert "r1").2 ++ (demoGenCert "r1").1)) } },
          effects :=
            ((demoCluster.filter (fun n => n.role_list.contains "client") ++
              demoCluster.filter (fun n => n.role_list.contains "rgw")).map (fun node =>
                [Effect.remoteFileWrite node
                    ("/etc/pki/ca-trust/source/anchors/" ++ "foo.bar" ++ ".crt")
                    (demoGenCert "r1").1,
                  Effect.execCommand node
                    "update-ca-trust enable && update-ca-trust extract"])).flatten } :=
  ⟨by decide, rfl, rfl, rfl, rfl,
    rgw_create_cert_renders_and_distributes demoGenCert demoCluster demoRgwBlock
      demoRgwResolved demoInner "r1" [] "foo.bar" (by decide) rfl rfl rfl rfl⟩

theorem data_ne_nil_of_ne_empty {s : String} (h : s ≠ "") : s.data ≠ [] := by
  intro hd
  apply h
  cases s
  cases hd
  rfl

theorem head?_append_left {s t : String} {c : Char} (h : s.data.head? = some c) :
    (s ++ t).data.head? = some c := by
  rw [String.data_append, List.head?_append, h]
  rfl

theorem os_path_join_no_slash (a b : String)
    (hb : ¬b.data.head? = some '/') (ha0 : ¬a = "") (ha : ¬a.data.getLast? = some '/') :
    os_path_join a b = a ++ "/" ++ b := by
  unfold os_path_join
  rw [if_neg hb, if_neg (not_or.mpr ⟨ha0, ha⟩)]

theorem lfp_eq (fsid : String) (h2 : ¬fsid.data.head? = some '/') :
    os_path_join "/var/log/ceph" fsid = "/var/log/ceph/" ++ fsid := by
  unfold os_path_join
  rw [if_neg h2, if_neg (by decide),
    show ("/var/log/ceph" ++ "/" : String) = "/var/log/ceph/" from by decide]

theorem logFileFor_eq_claimed (fsid daemon : String)
    (h1 : fsid ≠ "") (h2 : ¬fsid.data.head? = some '/')
    (h3 : ¬fsid.data.getLast? = some '/') :
    logFileFor (os_path_join "/var/log/ceph" fsid) daemon =
      claimedLogFile fsid daemon := by
  rw [lfp_eq fsid h2]
  have hlfp0 : ¬("/var/log/ceph/" ++ fsid) = "" := by
    intro e
    have hdata := congrArg String.data e
    rw [String.data_append] at hdata
    exact absurd (List.append_eq_nil.mp hdata).1 (by decide)
  have hlfpl : ¬("/var/log/ceph/" ++ fsid).data.getLast? = some '/' := by
    rw [String.data_append, List.getLast?_append]
    cases hf : fsid.data.getLast? with
    | some c =>
      rw [hf] at h3
      simpa using h3
    | none =>
      exact absurd (List.getLast?_eq_none_iff.mp hf) (data_ne_nil_of_ne_empty h1)
  unfold logFileFor claimedLogFile
  by_cases hin : pyInStr "rgw" daemon = true
  · rw [if_pos hin, if_pos hin,
      os_path_join_no_slash _ _
        (by
          rw [show ("ceph-client." ++ daemon ++ ".log" : String) =
            "ceph-client." ++ (daemon ++ ".log") from String.append_assoc _ _ _]
          rw [head?_append_left (s := "ceph-client.") (c := 'c') (by decide)]
          decide)
        hlfp0 hlfpl]
  · rw [if_neg hin, if_neg hin,
      os_path_join_no_slash _ _
        (by
          rw [show ("ceph-" ++ daemon ++ ".log" : String) =
            "ceph-" ++ (daemon ++ ".log") from String.append_assoc _ _ _]
          rw [head?_append_left (s := "ceph-") (c := 'c') (by decide)]
          decide)
        hlfp0 hlfpl]

theorem lookupA_daemonValid (dd : List (String × List String)) (h : String) :
    lookupA h (daemonValid dd) =
      (lookupA h dd).map (fun v => v.filter
        (fun val => roles_to_validate.contains ((pySplit '.' val).headD ""))) := by
  induction dd with
  | nil => rfl
  | cons kv rest ih =>
    obtain ⟨k, v⟩ := kv
    by_cases hk : k = h <;>
      simp only [daemonValid, List.map_cons, lookupA, hk, if_pos, if_neg,
        if_true, Option.map_some'] <;>
      simp [lookupA, hk] <;>
      simpa [daemonValid] using ih

/-- C4, counterexample: the daemon `mds.rgwfs` has type `mds` (so it is
checked) yet its expected log path is the `ceph-client.` one, because the
code tests `"rgw" in daemon` as a substring of the whole name — refuting
"(and only those of type rgw)". -/
theorem mds_daemon_named_rgw_uses_client_path :
    logFileFor (os_path_join "/var/log/ceph" "fsid0") "mds.rgwfs" =
      "/var/log/ceph/fsid0/ceph-client.mds.rgwfs.log" ∧
    (pySplit '.' "mds.rgwfs").headD "" = "mds" ∧
    roles_to_validate.contains "mds" = true ∧
    expected_checks (os_path_join "/var/log/ceph" "fsid0")
      (daemonValid [("c1h", ["mds.rgwfs"])]) [demoClient] =
      [(demoClient, "/var/log/ceph/fsid0/ceph-client.mds.rgwfs.log")] ∧
    "/var/log/ceph/fsid0/ceph-client.mds.rgwfs.log" ≠
      "/var/log/ceph/fsid0/ceph-mds.rgwfs.log" := by
  refine ⟨by decide, by decide, by decide, by decide, by decide⟩

/-- C4 (amended): the checks performed (were every file present) are exactly:
for each cluster node in the host→daemon map, each daemon whose name's first
dot-component is in {mon, mgr, osd, rgw, mds}, at the path
`/var/log/ceph/<fsid>/ceph-<daemon>.log` — except that a daemon whose name
contains `"rgw"` as a substring (not only type-rgw daemons) uses
`/var/log/ceph/<fsid>/ceph-client.<daemon>.log`. -/
theorem expected_checks_eq_claimed (fsid : String)
    (h1 : fsid ≠ "") (h2 : ¬fsid.data.head? = some '/')
    (h3 : ¬fsid.data.getLast? = some '/')
    (dd : List (String × List String)) (ns : List CephNode) :
    expected_checks (os_path_join "/var/log/ceph" fsid) (daemonValid dd) ns =
      claimed_checks fsid dd ns := by
  induction ns with
  | nil => rfl
  | cons node rest ih =>
    simp only [expected_checks, claimed_checks, lookupA_daemonValid]
    cases hl : lookupA node.hostname dd with
    | none => simp [hl, ih]
    | some ds =>
      simp only [hl, Option.map_some', ih]
      congr 1
      apply List.map_congr_left
      intro d _
      rw [logFileFor_eq_claimed fsid d h1 h2 h3]

/-- C4, witness: the amended claim at a concrete fsid, daemon map and node
list containing both a plain and an rgw-substring daemon name. -/
theorem expected_checks_eq_claimed_witness :
    (("f0" : String) ≠ "") ∧
    (¬("f0" : String).data.head? = some '/') ∧
    (¬("f0" : String).data.getLast? = some '/') ∧
    expected_checks (os_path_join "/var/log/ceph" "f0")
      (daemonValid [("c1h", ["mon.a", "mds.rgwfs", "node-exporter.x"])]) [demoClient] =
      claimed_checks "f0" [("c1h", ["mon.a", "mds.rgwfs", "node-exporter.x"])] [demoClient] :=
  ⟨by decide, by decide, by decide,
    expected_checks_eq_claimed "f0" (by decide) (by decide) (by decide)
      [("c1h", ["mon.a", "mds.rgwfs", "node-exporter.x"])] [demoClient]⟩

theorem ttf_of_all {α : Type} (p : α → Bool) (M : List α) (h : M.all p = true) :
    takeThroughFirstFail p M = M := by
  induction M with
  | nil => rfl
  | cons c M ih =>
    rw [List.all_cons] at h
    obtain ⟨h1, h2⟩ := Bool.and_eq_true_iff.mp h
    simp [takeThroughFirstFail, h1, ih h2]

theorem ttf_append {α : Type} (p : α → Bool) (M N : List α) :
    takeThroughFirstFail p (M ++ N) =
      if M.all p then M ++ takeThroughFirstFail p N
      else takeThroughFirstFail p M := by
  induction M with
  | nil => simp [takeThroughFirstFail]
  | cons c M ih =>
    by_cases hc : p c = true
    · simp only [List.cons_append, takeThroughFirstFail, hc, if_true,
        List.all_cons, Bool.true_and]
      by_cases hM : M.all p = true
      · simp only [List.append_eq]
        rw [ih, if_pos hM, if_pos hM]
      · simp only [List.append_eq]
        rw [ih, if_neg hM, if_neg hM]
    · simp [takeThroughFirstFail, hc, List.all_cons]

theorem checkDaemons_eq (ex : CephNode → String → Except CommandFailed String)
    (lfp : String) (node : CephNode) (ds : List String) :
    checkDaemons ex lfp node ds =
      ((ds.map (fun d => (node, logFileFor lfp d))).all
          (fun c => file_or_path_exists (ex c.1) c.2),
        takeThroughFirstFail (fun c => file_or_path_exists (ex c.1) c.2)
          (ds.map (fun d => (node, logFileFor lfp d)))) := by
  induction ds with
  | nil => rfl
  | cons d ds ih =>
    simp only [checkDaemons, List.map_cons, List.all_cons, takeThroughFirstFail, ih]
    by_cases hc : file_or_path_exists (ex node) (logFileFor lfp d) = true
    · simp [hc]
    · simp [hc]

theorem checkNodes_eq (ex : CephNode → String → Except CommandFailed String)
    (lfp : String) (dv : List (String × List String)) (ns : List CephNode) :
    checkNodes ex lfp dv ns =
      ((expected_checks lfp dv ns).all (fun c => file_or_path_exists (ex c.1) c.2),
        takeThroughFirstFail (fun c => file_or_path_exists (ex c.1) c.2)
          (expected_checks lfp dv ns)) := by
  induction ns with
  | nil => rfl
  | cons node ns ih =>
    cases hl : lookupA node.hostname dv with
    | none =>
      have e1 : checkNodes ex lfp dv (node :: ns) = checkNodes ex lfp dv ns := by
        simp [checkNodes, hl]
      have e2 : expected_checks lfp dv (node :: ns) = expected_checks lfp dv ns := by
        simp [expected_checks, hl]
      rw [e1, e2]
      exact ih
    | some daemons =>
      have e1 : checkNodes ex lfp dv (node :: ns) =
          (if (checkDaemons ex lfp node daemons).1 = true then
            ((checkNodes ex lfp dv ns).1,
              (checkDaemons ex lfp node daemons).2 ++ (checkNodes ex lfp dv ns).2)
          else (false, (checkDaemons ex lfp node daemons).2)) := by
        simp [checkNodes, hl]
      have e2 : expected_checks lfp dv (node :: ns) =
          daemons.map (fun d => (node, logFileFor lfp d)) ++ expected_checks lfp dv ns := by
        simp [expected_checks, hl]
      rw [e1, e2, checkDaemons_eq, ih]
      by_cases hall : (daemons.map (fun d => (node, logFileFor lfp d))).all
          (fun c => file_or_path_exists (ex c.1) c.2) = true
      · simp [hall, List.all_append, ttf_append, ttf_of_all _ _ hall]
      · simp [hall, List.all_append, ttf_append]

/-- C5: `validate_log_file_after_enable` returns true exactly when every
expected log file exists, and the existence checks it performs are exactly
the expected checks up to and including the first failing one (all of them
when none fails) — it stops at the first missing file or failed command and
checks nothing further. -/
theorem verify_log_files_short_circuits
    (ex : CephNode → String → Except CommandFailed String) (fsid : String)
    (records : List DaemonRecord) (cluster_nodes : List CephNode) :
    validate_log_file_after_enable ex fsid records cluster_nodes =
      ((expected_checks (os_path_join "/var/log/ceph" fsid)
          (daemonValid (get_host_daemon_map records)) cluster_nodes).all
          (fun c => file_or_path_exists (ex c.1) c.2),
        takeThroughFirstFail (fun c => file_or_path_exists (ex c.1) c.2)
          (expected_checks (os_path_join "/var/log/ceph" fsid)
            (daemonValid (get_host_daemon_map records)) cluster_nodes)) ∧
    ((validate_log_file_after_enable ex fsid records cluster_nodes).1 = true ↔
      ∀ c ∈ expected_checks (os_path_join "/var/log/ceph" fsid)
          (daemonValid (get_host_daemon_map records)) cluster_nodes,
        file_or_path_exists (ex c.1) c.2 = true) := by
  have hmain := checkNodes_eq ex (os_path_join "/var/log/ceph" fsid)
    (daemonValid (get_host_daemon_map records)) cluster_nodes
  refine ⟨hmain, ?_⟩
  rw [show validate_log_file_after_enable ex fsid records cluster_nodes =
    checkNodes ex (os_path_join "/var/log/ceph" fsid)
      (daemonValid (get_host_daemon_map records)) cluster_nodes from rfl, hmain]
  exact List.all_eq_true

end CephHelper
